import Mathlib

/-!
# Verification of the PDF-Research-Scraper acquisition pipeline

Shallow embedding of `src/scrape_pdfs.py` and `src/app.py`.

External HTTP services (Crossref search, Unpaywall lookup, file download)
are modelled as oracle functions passed in explicitly; the local file
system is a map from paths to file contents (a file's content is a string
whose characters stand for its bytes).  Python truthiness of optional
strings, dictionaries and lists is modelled explicitly where the source
relies on it.
-/

set_option autoImplicit false

namespace PdfScraper

/-- Python's `str.endswith`, on the character sequence. -/
def strEndsWith (s suffix : String) : Bool := suffix.data.isSuffixOf s.data

/-- `PREFERRED_PUBLISHERS` (scrape_pdfs.py line 39). -/
def PREFERRED_PUBLISHERS : List String := ["Springer", "IEEE", "Scopus", "Elsevier"]

/-- Python truthiness of an optional string: `None` and `""` are falsy.
Normalises to `none` exactly when the value would fail an `if value:` test. -/
def truthyS : Option String → Option String
  | none => none
  | some s => if s = "" then none else some s

/-! ## Unpaywall response model and the OA resolver (scrape_pdfs.py lines 77-104) -/

/-- One open-access location in an Unpaywall response: the optional
`url_for_pdf` and `url` fields read by the resolver. -/
structure OALocation where
  url_for_pdf : Option String
  url : Option String

/-- The parts of an Unpaywall JSON body the resolver reads:
`best_oa_location` (absent/null modelled as `none`) and `oa_locations`. -/
structure UnpaywallData where
  best_oa_location : Option OALocation
  oa_locations : List OALocation

/-- Outcome of the Unpaywall HTTP round trip: any transport/HTTP/parse
exception collapses to `error` (caught at line 102). -/
inductive UnpaywallResp where
  | error
  | ok (data : UnpaywallData)

/-- `loc.get("url_for_pdf") or loc.get("url")` (lines 91 and 99),
with Python's `or` treating `None` and `""` as falsy. -/
def locUrl (loc : OALocation) : Option String :=
  (truthyS loc.url_for_pdf).orElse (fun _ => truthyS loc.url)

/-- The fallback `for loc in data.get("oa_locations", [])` loop
(lines 98-101): first location offering a truthy URL. -/
def firstLocUrl : List OALocation → Option String
  | [] => none
  | loc :: rest =>
    match locUrl loc with
    | some u => some u
    | none => firstLocUrl rest

/-- `get_pdf_url_from_unpaywall` (lines 77-104), as a function of the
service's response.  The `.pdf`-suffix test at line 92 is kept even though
both of its branches return the same value, mirroring the source. -/
def get_pdf_url_from_unpaywall (resp : UnpaywallResp) : Option String :=
  match resp with
  | .error => none
  | .ok data =>
    let fromBest : Option String :=
      match data.best_oa_location with
      | some loc =>
        match locUrl loc with
        | some pdf_url =>
          if strEndsWith (String.mk (pdf_url.data.map Char.toLower)) ".pdf" then
            some pdf_url
          else some pdf_url
        | none => none
      | none => none
    match fromBest with
    | some u => some u
    | none => firstLocUrl data.oa_locations

/-- Modelled from the spec's words (§4.2), for the refinement claim about
the OA resolver: prefer the best location's direct-PDF URL, then that same
location's generic URL, then the first available URL among the other
reported locations; `none` when no location is reported or the lookup
fails.  "Available" is read as a present, non-empty URL string. -/
def resolvePdfUrl_spec (resp : UnpaywallResp) : Option String :=
  match resp with
  | .error => none
  | .ok data =>
    match data.best_oa_location with
    | some best =>
      match truthyS best.url_for_pdf with
      | some u => some u
      | none =>
        match truthyS best.url with
        | some u => some u
        | none => firstAvailableUrl data.oa_locations
    | none => firstAvailableUrl data.oa_locations
where
  /-- First location in the list offering a direct-PDF or generic URL. -/
  firstAvailableUrl : List OALocation → Option String
    | [] => none
    | loc :: rest =>
      match truthyS loc.url_for_pdf with
      | some u => some u
      | none =>
        match truthyS loc.url with
        | some u => some u
        | none => firstAvailableUrl rest

/-! ## Filename sanitisation (scrape_pdfs.py lines 106-108) -/

/-- The character class of `re.sub(r'[\\/*?:"<>|]', "_", s)`. -/
def fsHostile : List Char := ['\\', '/', '*', '?', ':', '\"', '<', '>', '|']

/-- One character of the `re.sub` replacement. -/
def replChar (c : Char) : Char := if c ∈ fsHostile then '_' else c

/-- `sanitize_filename` (lines 106-108): replace each filesystem-hostile
character by `_`, then truncate to the first 200 characters. -/
def sanitize_filename (s : String) : String :=
  String.mk ((s.data.map replChar).take 200)

/-! ## File system and download (scrape_pdfs.py lines 110-151) -/

/-- The local file system: a map from paths to file contents. -/
def Fs : Type := String → Option String

/-- Writing a file (the `open(dest_path, "wb")` + chunk loop). -/
def fsWrite (fs : Fs) (p c : String) : Fs := fun q => if q = p then some c else fs q

/-- `os.remove` (guarded by `os.path.exists`; removing an absent file
is a no-op here, as the source swallows the error). -/
def fsRemove (fs : Fs) (p : String) : Fs := fun q => if q = p then none else fs q

/-- The empty file system. -/
def fsEmpty : Fs := fun _ => none

/-- Outcome of the streaming HTTP GET for a candidate URL: a transport or
HTTP-status failure (at whatever point of the stream), or the full body. -/
inductive FetchResult where
  | error
  | body (content : String)

/-- `download_file` (lines 110-139).  On transport failure or a body below
the 1024-byte floor the destination file is removed (lines 130-138) and
`False` is returned; otherwise the body is left at `dest_path`. -/
def download_file (fetch : String → FetchResult) (url dest_path : String) (fs : Fs) :
    Bool × Fs :=
  match fetch url with
  | .error => (false, fsRemove fs dest_path)
  | .body content =>
    if content.length < 1024 then
      (false, fsRemove (fsWrite fs dest_path content) dest_path)
    else
      (true, fsWrite fs dest_path content)

/-- `is_valid_pdf` (lines 141-151): first 4 bytes equal `%PDF`;
an unreadable (absent) file counts as invalid. -/
def is_valid_pdf (fs : Fs) (file_path : String) : Bool :=
  match fs file_path with
  | some content => content.data.take 4 == "%PDF".data
  | none => false

/-- `os.path.getsize` on a file known to exist (absent reads as 0). -/
def fileSize (fs : Fs) (p : String) : Nat :=
  match fs p with
  | some content => content.length
  | none => 0

/-! ## Crossref items and the item pipeline (scrape_pdfs.py lines 153-213) -/

/-- A date field of a Crossref item (`published-print`, `published-online`
or `created`): its `date-parts` list of lists of integers. -/
structure DateInfo where
  date_parts : List (List Int)

/-- The parts of a Crossref work item read by the pipeline. An absent key
is `none` (for `doi`, the date fields) or `[]`/`""` (for the list and
string fields, whose absent and falsy cases the source merges). -/
structure Item where
  doi : Option String
  title : List String
  container_title : List String
  published_print : Option DateInfo
  published_online : Option DateInfo
  created : Option DateInfo
  publisher : String

/-- `item.get("title", [""])[0] if item.get("title") else ""` (line 160). -/
def titleOf (item : Item) : String :=
  match item.title with
  | [] => ""
  | t :: _ => t

/-- Same extraction for `container-title` (line 161). -/
def journalOf (item : Item) : String :=
  match item.container_title with
  | [] => ""
  | j :: _ => j

/-- Lines 162-166: pick the first present date field, then join the first
`date-parts` entry with `-`; otherwise `"unknown"`. -/
def pubDateOf (item : Item) : String :=
  match (item.published_print).orElse
      (fun _ => (item.published_online).orElse (fun _ => item.created)) with
  | some info =>
    match info.date_parts with
    | dp :: _ => String.intercalate "-" (dp.map toString)
    | [] => "unknown"
  | none => "unknown"

/-- The unsanitised filename `f"{pub_date} - {journal} - {title}.pdf"`
(line 184). -/
def rawFilename (item : Item) : String :=
  pubDateOf item ++ " - " ++ journalOf item ++ " - " ++ titleOf item ++ ".pdf"

/-- `os.path.join(outdir, sanitize_filename(...))` (lines 184-185). -/
def destPath (outdir : String) (item : Item) : String :=
  outdir ++ "/" ++ sanitize_filename (rawFilename item)

/-- How Python renders the DOI inside the publisher-skip message
(f-string of a possibly-`None` value). -/
def doiText : Option String → String
  | some d => d
  | none => "None"

/-- The CLI argument record of scrape_pdfs.py (lines 358-367).  `max` is an
`Int` because Python's `int` is unbounded and the `--max` flag may be
non-positive.  The politeness pauses are pure delays with no effect on
state and have no counterpart here. -/
structure ScrapeArgs where
  keywords : String
  email : String
  max : Int
  outdir : String
  start_date : String
  end_date : String
  filter_publishers : Bool

/-- The network oracles used by one item-pipeline call: the Unpaywall
response per DOI and the fetched body per URL. -/
structure NetEnv where
  unpaywall : String → UnpaywallResp
  fetch : String → FetchResult

/-- `process_item` (lines 153-213): publisher filter, DOI check, OA
resolution, download, signature and size validation.  A total function
into `(success, message, file system)`: the source's enclosing
`try/except` turns any internal exception into a `(False, message)`
return, so no exception escapes its boundary. -/
def process_item (env : NetEnv) (item : Item) (email : String) (outdir : String)
    (args : ScrapeArgs) (fs : Fs) : Bool × String × Fs :=
  let _ := email
  if args.filter_publishers = true ∧ item.publisher ∉ PREFERRED_PUBLISHERS then
    (false, "Skipping " ++ doiText item.doi ++ " - Publisher " ++ item.publisher ++
      " not in preferred list", fs)
  else
    match truthyS item.doi with
    | none => (false, "No DOI found", fs)
    | some doi =>
      match get_pdf_url_from_unpaywall (env.unpaywall doi) with
      | none => (false, "No OA PDF reported by Unpaywall for DOI: " ++ doi, fs)
      | some pdf_url =>
        let dest_path := destPath outdir item
        let dl := download_file env.fetch pdf_url dest_path fs
        if dl.1 = true ∧ (dl.2 dest_path).isSome = true then
          if is_valid_pdf dl.2 dest_path = false then
            (false, "Downloaded file is not a valid PDF from: " ++ pdf_url,
              fsRemove dl.2 dest_path)
          else if fileSize dl.2 dest_path < 1024 then
            (false, "Downloaded file is too small from: " ++ pdf_url,
              fsRemove dl.2 dest_path)
          else
            (true, "Saved: " ++ dest_path, dl.2)
        else if dl.1 = true then
          (false, "Download completed but file not found: " ++ pdf_url, dl.2)
        else
          (false, "Failed to download PDF from: " ++ pdf_url, dl.2)

/-! ## The acquisition scheduler (scrape_pdfs.py lines 254-356)

The scheduler submits items to a thread pool and only ever reads a
future's value through `future.result(...)`, in submission order, from the
single scheduler thread; all counters and the `seen` set live in that
thread.  The run is therefore modelled as a deterministic state machine in
which each submitted future carries its eventual result, given by an
oracle keyed on the item's DOI. -/

/-- Eventual result of one submitted future: the `(success, message)` pair
returned by `process_item` (only the Boolean matters to the counters), or
a per-item timeout / raised exception, which the scheduler logs and does
not count (lines 324-329, 348-351). -/
inductive FutResult where
  | ok (success : Bool)
  | failed
deriving DecidableEq

/-- Oracles driving one scheduler run: the Crossref page returned for a
given offset (`none` = failed request, line 285) and the eventual result
of the future submitted for a given DOI. -/
structure SchedEnv where
  search : Int → Option (List Item)
  outcome : String → FutResult

/-- The scheduler's mutable state (lines 263-269), plus two ghost traces
recording the observable requests: `submitted` lists the DOIs handed to
`executor.submit(process_item, ...)` in order, and `searches` records the
`(attempts, offset)` pair at each `query_crossref` call. -/
structure SchedState where
  downloaded : Int
  attempts : Int
  seen : List String
  offset : Int
  futures : List (String × FutResult)
  submitted : List String
  searches : List (Int × Int)
deriving DecidableEq

/-- The submission `for item in items` loop (lines 292-308): stop when the
in-flight buffer reaches `max - downloaded + 10`; skip items with a falsy
or already-seen DOI; otherwise mark seen, count the attempt and submit. -/
def submitItems (env : SchedEnv) (maxCount : Int) : List Item → SchedState → SchedState
  | [], s => s
  | item :: rest, s =>
    if (s.futures.length : Int) ≥ maxCount - s.downloaded + 10 then s
    else
      match truthyS item.doi with
      | none => submitItems env maxCount rest s
      | some doi =>
        if doi ∈ s.seen then submitItems env maxCount rest s
        else
          submitItems env maxCount rest
            { s with
              seen := doi :: s.seen
              attempts := s.attempts + 1
              futures := s.futures ++ [(doi, env.outcome doi)]
              submitted := s.submitted ++ [doi] }

/-- The completion loop `for future, doi in list(futures)` (lines
313-333): awaiting each future in order, counting a success, removing the
processed entry, and breaking out as soon as `downloaded >= args.max` —
which leaves the unprocessed suffix in flight.  Returns the new
`downloaded` and the futures still in flight. -/
def processFutures (maxCount : Int) :
    List (String × FutResult) → Int → Int × List (String × FutResult)
  | [], downloaded => (downloaded, [])
  | (_, r) :: rest, downloaded =>
    let downloaded' := match r with | .ok true => downloaded + 1 | _ => downloaded
    if downloaded' ≥ maxCount then (downloaded', rest)
    else processFutures maxCount rest downloaded'

/-- The scheduler `while` loop (lines 282-338), with `per_page = 20`
(line 263) and `max_attempts = args.max * 3` passed as `maxAttempts`.
A failed request or an empty page breaks out of the loop (lines 285-289)
after the search has been issued. -/
def schedLoop (env : SchedEnv) (maxCount maxAttempts : Int) (s : SchedState) : SchedState :=
  if _h : s.downloaded < maxCount ∧ s.attempts < maxAttempts ∧ s.offset < maxAttempts * 5 then
    let s0 : SchedState := { s with searches := s.searches ++ [(s.attempts, s.offset)] }
    match env.search s.offset with
    | none => s0
    | some items =>
      if items.isEmpty then s0
      else
        let s1 := submitItems env maxCount items s0
        let s2 : SchedState := { s1 with offset := s.offset + 20 }
        let pr := processFutures maxCount s2.futures s2.downloaded
        schedLoop env maxCount maxAttempts { s2 with downloaded := pr.1, futures := pr.2 }
  else s
termination_by (maxAttempts * 5 - s.offset).toNat
decreasing_by
  omega

/-- The final `for future, doi in futures` drain (lines 341-351): every
remaining in-flight success is still counted, with no bound check. -/
def drainFutures : List (String × FutResult) → Int → Int
  | [], downloaded => downloaded
  | (_, r) :: rest, downloaded =>
    drainFutures rest (match r with | .ok true => downloaded + 1 | _ => downloaded)

/-- The scheduler's initial state (lines 263-269). -/
def initState : SchedState :=
  { downloaded := 0, attempts := 0, seen := [], offset := 0,
    futures := [], submitted := [], searches := [] }

/-- How one run of `main` ends. -/
inductive MainOutcome where
  | invalidEmailReturn
  | poolValueError
  | finished (final : SchedState) (downloaded : Int)
deriving DecidableEq

/-- `main` (lines 254-356).  An empty or `@`-less email returns early
(lines 256-258).  `ThreadPoolExecutor(max_workers=min(args.max, 5))`
(lines 267, 278) raises `ValueError` when `min(args.max, 5) ≤ 0`
(CPython rejects a non-positive `max_workers`), and nothing in `main` or
its caller catches it — modelled as the `poolValueError` outcome, reached
before any search request.  Otherwise the loop runs and the drained
`downloaded` count is reported (line 353). -/
def main_run (env : SchedEnv) (args : ScrapeArgs) : MainOutcome :=
  if args.email = "" ∨ '@' ∉ args.email.data then .invalidEmailReturn
  else if min args.max 5 ≤ 0 then .poolValueError
  else
    let final := schedLoop env args.max (args.max * 3) initState
    .finished final (drainFutures final.futures final.downloaded)

/-! ## Per-topic sizing and result aggregation (app.py) -/

/-- `max(5, max_pdfs // num_topics)` with the `num_topics == 0 → 1` guard
(app.py lines 73-77). -/
def max_pdfs_per_topic (max_pdfs num_topics : Nat) : Nat :=
  let n := if num_topics = 0 then 1 else num_topics
  max 5 (max_pdfs / n)

/-- The per-topic count of delivered PDFs: the directory listing filtered
to names ending in `.pdf` (app.py lines 377-380). -/
def topicPdfFiles (files : List String) : List String :=
  files.filter (fun f => strEndsWith f ".pdf")

/-- The merge step moves exactly the `.pdf`-suffixed files into the job
directory (app.py lines 103-111). -/
def mergeMovedFiles (files : List String) : List String :=
  files.filter (fun f => strEndsWith f ".pdf")

/-! ## Concrete instances used by witnesses and counterexamples -/

/-- Concrete argument record with a valid email and `--max 0`. -/
def argsZero : ScrapeArgs :=
  { keywords := "k", email := "a@b", max := 0, outdir := "out",
    start_date := "2024-01-01", end_date := "2025-12-31", filter_publishers := false }

/-- A scheduler environment whose every search request fails. -/
def envEmpty : SchedEnv :=
  { search := fun _ => none, outcome := fun _ => FutResult.failed }

/-- A work record that passes every filter: DOI present, no publisher
filtering in force. -/
def itemOk : Item :=
  { doi := some "10.1/ok", title := ["T"], container_title := ["J"],
    published_print := none, published_online := none, created := none,
    publisher := "ACM" }

/-- A 1024-byte body beginning with the `%PDF` signature. -/
def pdfBody : String := String.mk ('%' :: 'P' :: 'D' :: 'F' :: List.replicate 1020 'a')

/-- Network oracles under which `itemOk` resolves and downloads cleanly. -/
def envOkNet : NetEnv :=
  { unpaywall := fun _ =>
      UnpaywallResp.ok
        { best_oa_location := some { url_for_pdf := some "http://h/p.pdf", url := none },
          oa_locations := [] },
    fetch := fun _ => FetchResult.body pdfBody }

/-- Network oracles under which the download always fails in transport. -/
def envFetchFail : NetEnv :=
  { unpaywall := fun _ =>
      UnpaywallResp.ok
        { best_oa_location := some { url_for_pdf := some "http://h/p.pdf", url := none },
          oa_locations := [] },
    fetch := fun _ => FetchResult.error }

/-- A work record whose unsanitised filename is 205 characters long and
whose title embeds ".pdf" so that it ends character 200 exactly. -/
def longTitleItem : Item :=
  { doi := some "10.1/x", title := [String.mk (List.replicate 182 'a') ++ ".pdfx"],
    container_title := ["J"], published_print := none, published_online := none,
    created := none, publisher := "" }

/-- An argument record requesting exactly one PDF. -/
def argsOne : ScrapeArgs := { argsZero with max := 1 }

/-- A scheduler environment whose first page yields two distinct items
whose pipelines both succeed: enough to overshoot a target of one while
the second future drains. -/
def envOvershoot : SchedEnv :=
  { search := fun o =>
      if o = 0 then
        some [{ itemOk with doi := some "a" }, { itemOk with doi := some "b" }]
      else none,
    outcome := fun _ => FutResult.ok true }

/-- Dedup invariant carried by the scheduler state: the submission trace
is duplicate-free, every submitted identifier has been recorded in
`seen`, and no submitted identifier is empty. -/
def SubmittedInv (s : SchedState) : Prop :=
  s.submitted.Nodup ∧ (∀ d ∈ s.submitted, d ∈ s.seen) ∧ (∀ d ∈ s.submitted, d ≠ "")

/-! ## Theorems -/

/-- The code's fallback loop and the spec's "first available URL among the
other reported locations" agree. -/
lemma firstLocUrl_eq_firstAvailable (locs : List OALocation) :
    firstLocUrl locs = resolvePdfUrl_spec.firstAvailableUrl locs := by
  induction locs with
  | nil => rfl
  | cons loc rest ih =>
    simp only [firstLocUrl, resolvePdfUrl_spec.firstAvailableUrl, locUrl, Option.orElse]
    cases truthyS loc.url_for_pdf <;> cases truthyS loc.url <;> simp [ih]

/-- C6: `get_pdf_url_from_unpaywall` returns, in preference order, the
best open-access location's direct-PDF URL, then that location's generic
URL, then the first available URL among the other reported locations, and
`none` when no location is reported or the lookup fails — i.e. it equals
the resolver specified in §4.2 of the spec. -/
theorem resolver_preference_order (resp : UnpaywallResp) :
    get_pdf_url_from_unpaywall resp = resolvePdfUrl_spec resp := by
  cases resp with
  | error => rfl
  | ok data =>
    simp only [get_pdf_url_from_unpaywall, resolvePdfUrl_spec]
    cases data.best_oa_location with
    | none => simp [firstLocUrl_eq_firstAvailable]
    | some loc =>
      simp only [locUrl, Option.orElse]
      cases truthyS loc.url_for_pdf <;> cases truthyS loc.url <;>
        simp [firstLocUrl_eq_firstAvailable, ite_self]

/-- C4: whenever `process_item` returns a Success outcome, the file at the
destination path exists on the resulting file system, its first 4 bytes
are the `%PDF` magic signature, and its size is at least 1024 bytes. -/
theorem success_implies_valid_pdf_file (env : NetEnv) (item : Item)
    (email outdir : String) (args : ScrapeArgs) (fs : Fs)
    (hs : (process_item env item email outdir args fs).1 = true) :
    ∃ content,
      (process_item env item email outdir args fs).2.2 (destPath outdir item) =
        some content ∧
      content.data.take 4 = "%PDF".data ∧
      1024 ≤ content.length := by
  by_cases hp : args.filter_publishers = true ∧ item.publisher ∉ PREFERRED_PUBLISHERS
  · simp [process_item, hp] at hs
  · cases hdoi : truthyS item.doi with
    | none => simp [process_item, hp, hdoi] at hs
    | some doi =>
      cases hurl : get_pdf_url_from_unpaywall (env.unpaywall doi) with
      | none => simp [process_item, hp, hdoi, hurl] at hs
      | some pdf_url =>
        cases hfetch : env.fetch pdf_url with
        | error =>
          simp [process_item, hp, hdoi, hurl, download_file, hfetch] at hs
        | body content =>
          by_cases hsize : content.length < 1024
          · simp [process_item, hp, hdoi, hurl, download_file, hfetch, hsize] at hs
          · by_cases hvalid : content.data.take 4 = "%PDF".data
            · refine ⟨content, ?_, hvalid, by omega⟩
              simp [process_item, hp, hdoi, hurl, download_file, hfetch, hsize,
                is_valid_pdf, fsWrite, fileSize, hvalid]
            · exfalso
              simp [process_item, hp, hdoi, hurl, download_file, hfetch, hsize,
                is_valid_pdf, fsWrite, hvalid] at hs

set_option maxRecDepth 8000 in
/-- Witness for C4: a concrete fully-successful item-pipeline run. -/
theorem success_implies_valid_pdf_file_witness :
    ∃ content,
      (process_item envOkNet itemOk "a@b" "out" argsZero fsEmpty).2.2
        (destPath "out" itemOk) = some content ∧
      content.data.take 4 = "%PDF".data ∧
      1024 ≤ content.length :=
  success_implies_valid_pdf_file envOkNet itemOk "a@b" "out" argsZero fsEmpty (by decide)

/-- C5: once the pipeline reaches the fetch-and-validate stage (publisher
filter passed, DOI present, OA URL resolved), a Failure outcome leaves no
file at the destination path, and a Success outcome leaves exactly the
fetched, validated body there. -/
theorem failure_leaves_no_file (env : NetEnv) (item : Item)
    (email outdir : String) (args : ScrapeArgs) (fs : Fs) (doi pdf_url : String)
    (hp : ¬ (args.filter_publishers = true ∧ item.publisher ∉ PREFERRED_PUBLISHERS))
    (hdoi : truthyS item.doi = some doi)
    (hurl : get_pdf_url_from_unpaywall (env.unpaywall doi) = some pdf_url) :
    ((process_item env item email outdir args fs).1 = false →
      (process_item env item email outdir args fs).2.2 (destPath outdir item) = none) ∧
    ((process_item env item email outdir args fs).1 = true →
      ∃ content, env.fetch pdf_url = FetchResult.body content ∧
        (process_item env item email outdir args fs).2.2 (destPath outdir item) =
          some content ∧
        content.data.take 4 = "%PDF".data ∧ 1024 ≤ content.length) := by
  cases hfetch : env.fetch pdf_url with
  | error =>
    constructor
    · intro _
      simp [process_item, hp, hdoi, hurl, download_file, hfetch, fsRemove]
    · intro hs
      simp [process_item, hp, hdoi, hurl, download_file, hfetch] at hs
  | body content =>
    by_cases hsize : content.length < 1024
    · constructor
      · intro _
        simp [process_item, hp, hdoi, hurl, download_file, hfetch, hsize, fsRemove]
      · intro hs
        simp [process_item, hp, hdoi, hurl, download_file, hfetch, hsize] at hs
    · by_cases hvalid : content.data.take 4 = "%PDF".data
      · constructor
        · intro hf
          exfalso
          simp [process_item, hp, hdoi, hurl, download_file, hfetch, hsize,
            is_valid_pdf, fsWrite, fileSize, hvalid] at hf
        · intro _
          refine ⟨content, rfl, ?_, hvalid, by omega⟩
          simp [process_item, hp, hdoi, hurl, download_file, hfetch, hsize,
            is_valid_pdf, fsWrite, fileSize, hvalid]
      · constructor
        · intro _
          simp [process_item, hp, hdoi, hurl, download_file, hfetch, hsize,
            is_valid_pdf, fsWrite, fileSize, hvalid, fsRemove]
        · intro hs
          simp [process_item, hp, hdoi, hurl, download_file, hfetch, hsize,
            is_valid_pdf, fsWrite, hvalid] at hs

/-- Witness for C5: a concrete failed fetch leaves no file at the
destination path. -/
theorem failure_leaves_no_file_witness :
    (process_item envFetchFail itemOk "a@b" "out" argsZero fsEmpty).2.2
      (destPath "out" itemOk) = none :=
  (failure_leaves_no_file envFetchFail itemOk "a@b" "out" argsZero fsEmpty
      "10.1/ok" "http://h/p.pdf" (by decide) (by decide) (by decide)).1 (by decide)

/-- C7: the item pipeline is a total function into a tagged
`(success, message)` outcome — in the source every internal exception is
caught by the enclosing `try/except` and returned as a Failure — and each
internal failure (missing DOI, failed OA resolution, transport failure,
undersized body, bad PDF signature) yields a Failure outcome carrying a
non-empty diagnostic message. -/
theorem process_item_outcome_total (env : NetEnv) (item : Item)
    (email outdir : String) (args : ScrapeArgs) (fs : Fs) :
    0 < (process_item env item email outdir args fs).2.1.length ∧
    (truthyS item.doi = none → (process_item env item email outdir args fs).1 = false) ∧
    (∀ doi, truthyS item.doi = some doi →
      get_pdf_url_from_unpaywall (env.unpaywall doi) = none →
      (process_item env item email outdir args fs).1 = false) ∧
    (∀ doi pdf_url, truthyS item.doi = some doi →
      get_pdf_url_from_unpaywall (env.unpaywall doi) = some pdf_url →
      env.fetch pdf_url = FetchResult.error →
      (process_item env item email outdir args fs).1 = false) ∧
    (∀ doi pdf_url content, truthyS item.doi = some doi →
      get_pdf_url_from_unpaywall (env.unpaywall doi) = some pdf_url →
      env.fetch pdf_url = FetchResult.body content → content.length < 1024 →
      (process_item env item email outdir args fs).1 = false) ∧
    (∀ doi pdf_url content, truthyS item.doi = some doi →
      get_pdf_url_from_unpaywall (env.unpaywall doi) = some pdf_url →
      env.fetch pdf_url = FetchResult.body content →
      ¬ content.data.take 4 = "%PDF".data →
      (process_item env item email outdir args fs).1 = false) := by
  refine ⟨?_, ?_, ?_, ?_, ?_, ?_⟩
  · by_cases hp : args.filter_publishers = true ∧ item.publisher ∉ PREFERRED_PUBLISHERS
    · simp [process_item, hp, String.length_append]
      repeat left
      decide
    · cases hdoi : truthyS item.doi with
      | none =>
        simp [process_item, hp, hdoi]
        decide
      | some doi =>
        cases hurl : get_pdf_url_from_unpaywall (env.unpaywall doi) with
        | none =>
          simp [process_item, hp, hdoi, hurl, String.length_append]
          repeat left
          decide
        | some pdf_url =>
          cases hfetch : env.fetch pdf_url with
          | error =>
            simp [process_item, hp, hdoi, hurl, download_file, hfetch,
              String.length_append]
            repeat left
            decide
          | body content =>
            by_cases hsize : content.length < 1024
            · simp [process_item, hp, hdoi, hurl, download_file, hfetch, hsize,
                String.length_append]
              repeat left
              decide
            · by_cases hvalid : content.data.take 4 = "%PDF".data
              · simp [process_item, hp, hdoi, hurl, download_file, hfetch, hsize,
                  is_valid_pdf, fsWrite, fileSize, hvalid, String.length_append]
                repeat left
                decide
              · simp [process_item, hp, hdoi, hurl, download_file, hfetch, hsize,
                  is_valid_pdf, fsWrite, hvalid, String.length_append]
                repeat left
                decide
  · intro hdoi
    by_cases hp : args.filter_publishers = true ∧ item.publisher ∉ PREFERRED_PUBLISHERS
    · simp [process_item, hp]
    · simp [process_item, hp, hdoi]
  · intro doi hdoi hurl
    by_cases hp : args.filter_publishers = true ∧ item.publisher ∉ PREFERRED_PUBLISHERS
    · simp [process_item, hp]
    · simp [process_item, hp, hdoi, hurl]
  · intro doi pdf_url hdoi hurl hfetch
    by_cases hp : args.filter_publishers = true ∧ item.publisher ∉ PREFERRED_PUBLISHERS
    · simp [process_item, hp]
    · simp [process_item, hp, hdoi, hurl, download_file, hfetch]
  · intro doi pdf_url content hdoi hurl hfetch hsize
    by_cases hp : args.filter_publishers = true ∧ item.publisher ∉ PREFERRED_PUBLISHERS
    · simp [process_item, hp]
    · simp [process_item, hp, hdoi, hurl, download_file, hfetch, hsize]
  · intro doi pdf_url content hdoi hurl hfetch hvalid
    by_cases hp : args.filter_publishers = true ∧ item.publisher ∉ PREFERRED_PUBLISHERS
    · simp [process_item, hp]
    · by_cases hsize : content.length < 1024
      · simp [process_item, hp, hdoi, hurl, download_file, hfetch, hsize]
      · simp [process_item, hp, hdoi, hurl, download_file, hfetch, hsize,
          is_valid_pdf, fsWrite, hvalid]

/-- Witness for C7: the failure-capture implications at a concrete item
with a missing DOI. -/
theorem process_item_outcome_total_witness :
    (process_item envFetchFail
        { itemOk with doi := none } "a@b" "out" argsZero fsEmpty).1 = false :=
  (process_item_outcome_total envFetchFail { itemOk with doi := none }
      "a@b" "out" argsZero fsEmpty).2.1 (by decide)

/-- Counterexample to C8's claim that the per-topic targets sum to at
least the requested total: with a requested total of 21 and 2 topics each
topic gets max(5, 21 / 2) = 10, and 2 × 10 = 20 < 21. -/
theorem per_topic_target_sum_counterexample :
    max_pdfs_per_topic 21 2 = 10 ∧ 2 * max_pdfs_per_topic 21 2 < 21 := by
  decide

/-- C8 (amended): each topic's target is max(5, total / topics); the sum
of per-topic targets is at least total − (total mod topics), and strictly
exceeds the total whenever total < 5 × topics (in particular whenever the
total is below 5) — but it can fall short of the total when
total ≥ 5 × topics and topics does not divide total. -/
theorem per_topic_target_sum (max_pdfs num_topics : Nat) (h : 1 ≤ num_topics) :
    max_pdfs_per_topic max_pdfs num_topics = max 5 (max_pdfs / num_topics) ∧
    max_pdfs - max_pdfs % num_topics ≤
      num_topics * max_pdfs_per_topic max_pdfs num_topics ∧
    (max_pdfs < 5 * num_topics →
      max_pdfs < num_topics * max_pdfs_per_topic max_pdfs num_topics) := by
  have hn : ¬ num_topics = 0 := by omega
  have hform : max_pdfs_per_topic max_pdfs num_topics = max 5 (max_pdfs / num_topics) := by
    simp [max_pdfs_per_topic, hn]
  refine ⟨hform, ?_, ?_⟩
  · have hdiv := Nat.div_add_mod max_pdfs num_topics
    have hAB : num_topics * (max_pdfs / num_topics) ≤
        num_topics * max 5 (max_pdfs / num_topics) :=
      Nat.mul_le_mul_left _ (le_max_right _ _)
    rw [hform]
    omega
  · intro hlt
    have hq5 : max_pdfs / num_topics < 5 :=
      (Nat.div_lt_iff_lt_mul (by omega)).mpr (by omega)
    rw [hform, Nat.max_eq_left (Nat.le_of_lt hq5)]
    omega

/-- Witness for C8 at total 21 and 2 topics. -/
theorem per_topic_target_sum_witness :
    max_pdfs_per_topic 21 2 = max 5 (21 / 2) ∧
    21 - 21 % 2 ≤ 2 * max_pdfs_per_topic 21 2 ∧
    (21 < 5 * 2 → 21 < 2 * max_pdfs_per_topic 21 2) :=
  per_topic_target_sum 21 2 (by decide)

set_option maxRecDepth 8000 in
/-- Counterexample to C9's claim that a work whose unsanitised name
exceeds 200 characters is never saved under a name ending in ".pdf": for
`longTitleItem` the raw name has 205 characters yet its 200-character
truncation still ends in ".pdf" (and such a file would therefore be
counted and moved). -/
theorem sanitize_truncation_counterexample :
    200 < (rawFilename longTitleItem).length ∧
    strEndsWith (sanitize_filename (rawFilename longTitleItem)) ".pdf" = true ∧
    sanitize_filename (rawFilename longTitleItem) ∈
      topicPdfFiles [sanitize_filename (rawFilename longTitleItem)] := by
  refine ⟨by decide, by decide, ?_⟩
  simp only [topicPdfFiles, List.mem_filter, List.mem_singleton]
  exact ⟨trivial, by decide⟩

/-- C9 (amended): `sanitize_filename` always returns at most 200
characters with every filesystem-hostile character replaced by `_`;
whenever the saved name does not end in ".pdf" (which truncation of an
over-long name generally causes, unless ".pdf" happens to end at character
200 as in the counterexample), the file is neither counted in the topic's
`pdf_count` nor moved into the merged job directory. -/
theorem sanitize_truncation_effects (s : String) (files : List String) :
    (sanitize_filename s).length ≤ 200 ∧
    (∀ c ∈ (sanitize_filename s).data, c ∉ fsHostile) ∧
    (strEndsWith (sanitize_filename s) ".pdf" = false →
      sanitize_filename s ∉ topicPdfFiles files ∧
      sanitize_filename s ∉ mergeMovedFiles files) := by
  refine ⟨?_, ?_, ?_⟩
  · show ((s.data.map replChar).take 200).length ≤ 200
    simp [List.length_take]
  · intro c hc
    have hc' : c ∈ s.data.map replChar := List.take_subset _ _ hc
    obtain ⟨a, _, rfl⟩ := List.mem_map.mp hc'
    by_cases ha : a ∈ fsHostile
    · simp only [replChar, if_pos ha]
      decide
    · simp only [replChar, if_neg ha]
      exact ha
  · intro hend
    constructor
    · intro hmem
      have := (List.mem_filter.mp hmem).2
      simp [hend] at this
    · intro hmem
      have := (List.mem_filter.mp hmem).2
      simp [hend] at this

/-- Witness for C9 with a name containing a hostile character and not
ending in ".pdf". -/
theorem sanitize_truncation_effects_witness :
    sanitize_filename "a:b" ∉ topicPdfFiles ["a_b", "x.pdf"] ∧
    sanitize_filename "a:b" ∉ mergeMovedFiles ["a_b", "x.pdf"] :=
  (sanitize_truncation_effects "a:b" ["a_b", "x.pdf"]).2.2 (by decide)

/-- C10: with a valid email and a non-positive `--max`, `main` reaches the
`ThreadPoolExecutor` construction with `max_workers = min(args.max, 5) ≤ 0`
and dies with its uncaught `ValueError` before issuing any search request,
instead of finishing with a downloaded-vs-requested summary. -/
theorem nonpositive_max_pool_error (env : SchedEnv) (args : ScrapeArgs)
    (he : ¬ args.email = "") (ha : '@' ∈ args.email.data)
    (hm : args.max ≤ 0) :
    main_run env args = MainOutcome.poolValueError := by
  have hmin : min args.max 5 ≤ 0 := le_trans (min_le_left _ _) hm
  simp [main_run, he, ha, hmin]

/-- Witness for C10 at `--max 0`. -/
theorem nonpositive_max_pool_error_witness :
    main_run envEmpty argsZero = MainOutcome.poolValueError :=
  nonpositive_max_pool_error envEmpty argsZero (by decide) (by decide) (by decide)

/-! ### Scheduler lemmas -/

/-- A truthy DOI is never the empty string. -/
lemma truthyS_ne_empty {o : Option String} {d : String} (h : truthyS o = some d) :
    d ≠ "" := by
  cases o with
  | none => simp [truthyS] at h
  | some s =>
    by_cases hs : s = ""
    · simp [truthyS, hs] at h
    · simp only [truthyS, if_neg hs, Option.some.injEq] at h
      subst h
      exact hs

/-- The submission loop changes neither the success counter, nor the
pagination cursor, nor the trace of issued searches. -/
lemma submitItems_fixed (env : SchedEnv) (maxCount : Int) (items : List Item)
    (s : SchedState) :
    (submitItems env maxCount items s).downloaded = s.downloaded ∧
    (submitItems env maxCount items s).offset = s.offset ∧
    (submitItems env maxCount items s).searches = s.searches := by
  induction items generalizing s with
  | nil => exact ⟨rfl, rfl, rfl⟩
  | cons item rest ih =>
    simp only [submitItems]
    split
    · exact ⟨rfl, rfl, rfl⟩
    · split
      · exact ih s
      · split
        · exact ih s
        · exact ih _

/-- The submission loop preserves the dedup invariant: it only submits a
truthy DOI that is not yet in `seen`, and records it in `seen` at once. -/
lemma submitItems_inv (env : SchedEnv) (maxCount : Int) (items : List Item)
    (s : SchedState) (h : SubmittedInv s) :
    SubmittedInv (submitItems env maxCount items s) := by
  induction items generalizing s with
  | nil => exact h
  | cons item rest ih =>
    simp only [submitItems]
    split
    · exact h
    · split
      · exact ih s h
      · rename_i doi hdoi
        split
        · exact ih s h
        · rename_i hseen
          apply ih
          obtain ⟨h1, h2, h3⟩ := h
          refine ⟨?_, ?_, ?_⟩
          · rw [List.nodup_append]
            refine ⟨h1, List.nodup_singleton doi, ?_⟩
            intro a ha hb
            rw [List.mem_singleton] at hb
            subst hb
            exact hseen (h2 a ha)
          · intro d hd
            rcases List.mem_append.mp hd with hd | hd
            · exact List.mem_cons_of_mem _ (h2 d hd)
            · rw [List.mem_singleton] at hd
              subst hd
              exact List.mem_cons_self _ _
          · intro d hd
            rcases List.mem_append.mp hd with hd | hd
            · exact h3 d hd
            · rw [List.mem_singleton] at hd
              subst hd
              exact truthyS_ne_empty hdoi

/-- The completion loop never counts past the target: it breaks out as
soon as `downloaded` reaches `maxCount`. -/
lemma processFutures_le (maxCount : Int) (l : List (String × FutResult)) (d : Int)
    (hd : d < maxCount) : (processFutures maxCount l d).1 ≤ maxCount := by
  induction l generalizing d with
  | nil => exact hd.le
  | cons p rest ih =>
    obtain ⟨doi, r⟩ := p
    cases r with
    | ok b =>
      cases b with
      | true =>
        simp only [processFutures]
        split
        · show d + 1 ≤ maxCount
          omega
        · rename_i hlt
          exact ih (d + 1) (by omega)
      | false =>
        simp only [processFutures]
        split
        · show d ≤ maxCount
          omega
        · exact ih d hd
    | failed =>
      simp only [processFutures]
      split
      · show d ≤ maxCount
        omega
      · exact ih d hd

/-- The drain loop adds at most one success per in-flight future. -/
lemma drainFutures_le (l : List (String × FutResult)) (d : Int) :
    drainFutures l d ≤ d + l.length := by
  induction l generalizing d with
  | nil => simp [drainFutures]
  | cons p rest ih =>
    obtain ⟨doi, r⟩ := p
    cases r with
    | ok b =>
      cases b with
      | true =>
        simp only [drainFutures]
        have h := ih (d + 1)
        simp only [List.length_cons]
        omega
      | false =>
        simp only [drainFutures]
        have h := ih d
        simp only [List.length_cons]
        omega
    | failed =>
      simp only [drainFutures]
      have h := ih d
      simp only [List.length_cons]
      omega

/-- Fuelled induction: the scheduler loop keeps `downloaded ≤ maxCount`. -/
lemma schedLoop_downloaded_le_aux (env : SchedEnv) (maxC maxA : Int) :
    ∀ (n : Nat) (s : SchedState), (maxA * 5 - s.offset).toNat ≤ n →
      s.downloaded ≤ maxC → (schedLoop env maxC maxA s).downloaded ≤ maxC := by
  intro n
  induction n with
  | zero =>
    intro s hn hd
    rw [schedLoop.eq_def]
    split
    · rename_i hguard
      exact absurd hguard (by omega)
    · exact hd
  | succ n ih =>
    intro s hn hd
    rw [schedLoop.eq_def]
    split
    · rename_i hguard
      split
      · exact hd
      · split
        · exact hd
        · apply ih
          · show (maxA * 5 - (s.offset + 20)).toNat ≤ n
            omega
          · show (processFutures maxC _ (submitItems env maxC _ _).downloaded).1 ≤ maxC
            rw [(submitItems_fixed env maxC _ _).1]
            exact processFutures_le maxC _ _ hguard.1
    · exact hd

/-- The scheduler loop keeps `downloaded ≤ maxCount` (before draining). -/
lemma schedLoop_downloaded_le (env : SchedEnv) (maxC maxA : Int) (s : SchedState)
    (h : s.downloaded ≤ maxC) : (schedLoop env maxC maxA s).downloaded ≤ maxC :=
  schedLoop_downloaded_le_aux env maxC maxA (maxA * 5 - s.offset).toNat s le_rfl h

/-- Fuelled induction: the scheduler loop preserves the dedup invariant. -/
lemma schedLoop_inv_aux (env : SchedEnv) (maxC maxA : Int) :
    ∀ (n : Nat) (s : SchedState), (maxA * 5 - s.offset).toNat ≤ n →
      SubmittedInv s → SubmittedInv (schedLoop env maxC maxA s) := by
  intro n
  induction n with
  | zero =>
    intro s hn hP
    rw [schedLoop.eq_def]
    split
    · rename_i hguard
      exact absurd hguard (by omega)
    · exact hP
  | succ n ih =>
    intro s hn hP
    rw [schedLoop.eq_def]
    split
    · rename_i hguard
      split
      · exact hP
      · split
        · exact hP
        · apply ih
          · show (maxA * 5 - (s.offset + 20)).toNat ≤ n
            omega
          · exact submitItems_inv env maxC _ _ hP
    · exact hP

/-- The scheduler loop preserves the dedup invariant. -/
lemma schedLoop_inv (env : SchedEnv) (maxC maxA : Int) (s : SchedState)
    (h : SubmittedInv s) : SubmittedInv (schedLoop env maxC maxA s) :=
  schedLoop_inv_aux env maxC maxA (maxA * 5 - s.offset).toNat s le_rfl h

/-- Fuelled induction: each search is issued under the loop guard, and at
most one search can be issued per 20 offset units below the cursor bound. -/
lemma schedLoop_searches_aux (env : SchedEnv) (maxC maxA : Int) :
    ∀ (n : Nat) (s : SchedState), (maxA * 5 - s.offset).toNat ≤ n →
      (∀ p ∈ s.searches, p.1 < maxA ∧ p.2 < maxA * 5) →
      (∀ p ∈ (schedLoop env maxC maxA s).searches, p.1 < maxA ∧ p.2 < maxA * 5) ∧
      (schedLoop env maxC maxA s).searches.length ≤
        s.searches.length + ((maxA * 5 - s.offset).toNat + 19) / 20 := by
  intro n
  induction n with
  | zero =>
    intro s hn hs
    rw [schedLoop.eq_def]
    split
    · rename_i hguard
      exact absurd hguard (by omega)
    · exact ⟨hs, by omega⟩
  | succ n ih =>
    intro s hn hs
    have hrec : ∀ p ∈ s.searches ++ [(s.attempts, s.offset)],
        s.downloaded < maxC ∧ s.attempts < maxA ∧ s.offset < maxA * 5 →
        p.1 < maxA ∧ p.2 < maxA * 5 := by
      intro p hp hguard
      rcases List.mem_append.mp hp with hp | hp
      · exact hs p hp
      · rw [List.mem_singleton] at hp
        subst hp
        exact ⟨hguard.2.1, hguard.2.2⟩
    rw [schedLoop.eq_def]
    split
    · rename_i hguard
      split
      · refine ⟨fun p hp => hrec p hp hguard, ?_⟩
        show (s.searches ++ [(s.attempts, s.offset)]).length ≤ _
        rw [List.length_append]
        have hoff := hguard.2.2
        simp only [List.length_singleton]
        omega
      · rename_i items hsearch
        split
        · refine ⟨fun p hp => hrec p hp hguard, ?_⟩
          show (s.searches ++ [(s.attempts, s.offset)]).length ≤ _
          rw [List.length_append]
          have hoff := hguard.2.2
          simp only [List.length_singleton]
          omega
        · have hoff := hguard.2.2
          show (∀ p ∈ (schedLoop env maxC maxA
              { downloaded := (processFutures maxC
                  (submitItems env maxC items
                    { s with searches := s.searches ++ [(s.attempts, s.offset)] }).futures
                  (submitItems env maxC items
                    { s with searches := s.searches ++ [(s.attempts, s.offset)] }).downloaded).1,
                attempts := (submitItems env maxC items
                  { s with searches := s.searches ++ [(s.attempts, s.offset)] }).attempts,
                seen := (submitItems env maxC items
                  { s with searches := s.searches ++ [(s.attempts, s.offset)] }).seen,
                offset := s.offset + 20,
                futures := (processFutures maxC
                  (submitItems env maxC items
                    { s with searches := s.searches ++ [(s.attempts, s.offset)] }).futures
                  (submitItems env maxC items
                    { s with searches := s.searches ++ [(s.attempts, s.offset)] }).downloaded).2,
                submitted := (submitItems env maxC items
                  { s with searches := s.searches ++ [(s.attempts, s.offset)] }).submitted,
                searches := (submitItems env maxC items
                  { s with searches := s.searches ++ [(s.attempts, s.offset)] }).searches
                }).searches, p.1 < maxA ∧ p.2 < maxA * 5) ∧
            (schedLoop env maxC maxA
              { downloaded := (processFutures maxC
                  (submitItems env maxC items
                    { s with searches := s.searches ++ [(s.attempts, s.offset)] }).futures
                  (submitItems env maxC items
                    { s with searches := s.searches ++ [(s.attempts, s.offset)] }).downloaded).1,
                attempts := (submitItems env maxC items
                  { s with searches := s.searches ++ [(s.attempts, s.offset)] }).attempts,
                seen := (submitItems env maxC items
                  { s with searches := s.searches ++ [(s.attempts, s.offset)] }).seen,
                offset := s.offset + 20,
                futures := (processFutures maxC
                  (submitItems env maxC items
                    { s with searches := s.searches ++ [(s.attempts, s.offset)] }).futures
                  (submitItems env maxC items
                    { s with searches := s.searches ++ [(s.attempts, s.offset)] }).downloaded).2,
                submitted := (submitItems env maxC items
                  { s with searches := s.searches ++ [(s.attempts, s.offset)] }).submitted,
                searches := (submitItems env maxC items
                  { s with searches := s.searches ++ [(s.attempts, s.offset)] }).searches
                }).searches.length ≤
              s.searches.length + ((maxA * 5 - s.offset).toNat + 19) / 20
          refine ⟨(ih _ ?_ ?_).1, le_trans (ih _ ?_ ?_).2 ?_⟩
          · show (maxA * 5 - (s.offset + 20)).toNat ≤ n
            omega
          · show ∀ p ∈ (submitItems env maxC items
                { s with searches := s.searches ++ [(s.attempts, s.offset)] }).searches,
                p.1 < maxA ∧ p.2 < maxA * 5
            rw [(submitItems_fixed env maxC items _).2.2]
            exact fun p hp => hrec p hp hguard
          · show (maxA * 5 - (s.offset + 20)).toNat ≤ n
            omega
          · show ∀ p ∈ (submitItems env maxC items
                { s with searches := s.searches ++ [(s.attempts, s.offset)] }).searches,
                p.1 < maxA ∧ p.2 < maxA * 5
            rw [(submitItems_fixed env maxC items _).2.2]
            exact fun p hp => hrec p hp hguard
          · show (submitItems env maxC items
                { s with searches := s.searches ++ [(s.attempts, s.offset)] }).searches.length
                + ((maxA * 5 - (s.offset + 20)).toNat + 19) / 20 ≤
              s.searches.length + ((maxA * 5 - s.offset).toNat + 19) / 20
            rw [(submitItems_fixed env maxC items _).2.2]
            show (s.searches ++ [(s.attempts, s.offset)]).length
                + ((maxA * 5 - (s.offset + 20)).toNat + 19) / 20 ≤
              s.searches.length + ((maxA * 5 - s.offset).toNat + 19) / 20
            rw [List.length_append, List.length_singleton]
            omega
    · exact ⟨hs, by omega⟩

/-- Searches are only issued while attempts and offset are under the
loop-guard bounds, and their total number is bounded. -/
lemma schedLoop_searches (env : SchedEnv) (maxC maxA : Int) (s : SchedState)
    (h : ∀ p ∈ s.searches, p.1 < maxA ∧ p.2 < maxA * 5) :
    (∀ p ∈ (schedLoop env maxC maxA s).searches, p.1 < maxA ∧ p.2 < maxA * 5) ∧
    (schedLoop env maxC maxA s).searches.length ≤
      s.searches.length + ((maxA * 5 - s.offset).toNat + 19) / 20 :=
  schedLoop_searches_aux env maxC maxA (maxA * 5 - s.offset).toNat s le_rfl h

/-- Concrete run: with every search failing, `main` finishes after one
search with nothing downloaded. -/
lemma main_run_envEmpty_eval :
    main_run envEmpty argsOne =
      MainOutcome.finished { initState with searches := [(0, 0)] } 0 := by
  simp only [main_run]
  rw [if_neg (by decide), if_neg (by decide), schedLoop.eq_def]
  decide

/-- Concrete run: target 1, one page with two successful items.  The
first success meets the target and breaks out of the completion loop, but
the drain still counts the in-flight second success: the final report says
2 downloaded against a requested maximum of 1. -/
lemma main_run_envOvershoot_eval :
    main_run envOvershoot argsOne =
      MainOutcome.finished
        { downloaded := 1, attempts := 2, seen := ["b", "a"], offset := 20,
          futures := [("b", FutResult.ok true)], submitted := ["a", "b"],
          searches := [(0, 0)] } 2 := by
  simp only [main_run]
  rw [if_neg (by decide), if_neg (by decide), schedLoop.eq_def]
  norm_num [envOvershoot, initState, argsOne, argsZero, itemOk, submitItems,
    truthyS, processFutures]
  rw [schedLoop.eq_def]
  decide

/-- Counterexample to C1's claim that the final reported count (drain
successes included) never exceeds the requested maximum: with `--max 1`
and two in-flight successes, `main` reports 2 downloaded. -/
theorem scheduler_overshoot_counterexample :
    main_run envOvershoot argsOne =
      MainOutcome.finished
        { downloaded := 1, attempts := 2, seen := ["b", "a"], offset := 20,
          futures := [("b", FutResult.ok true)], submitted := ["a", "b"],
          searches := [(0, 0)] } 2 ∧
    argsOne.max = 1 ∧ ¬ ((2 : Int) ≤ argsOne.max) :=
  ⟨main_run_envOvershoot_eval, by decide, by decide⟩

/-- C1 (amended): when `main` finishes, the success count at loop exit —
before the drain — is at most the requested maximum, and the final
reported count exceeds the maximum by at most the number of items still
in flight at loop exit (the drain counts those without any bound check). -/
theorem scheduler_overshoot_bound (env : SchedEnv) (args : ScrapeArgs)
    (fin : SchedState) (reported : Int)
    (h : main_run env args = MainOutcome.finished fin reported) :
    fin.downloaded ≤ args.max ∧ reported ≤ args.max + fin.futures.length := by
  unfold main_run at h
  split at h
  · simp at h
  · split at h
    · simp at h
    · injection h with h1 h2
      subst h1
      subst h2
      constructor
      · exact schedLoop_downloaded_le env args.max (args.max * 3) initState
          (by show (0 : Int) ≤ args.max; rename_i hpool; omega)
      · have hle := schedLoop_downloaded_le env args.max (args.max * 3) initState
          (by show (0 : Int) ≤ args.max; rename_i hpool; omega)
        have hdr := drainFutures_le
          (schedLoop env args.max (args.max * 3) initState).futures
          (schedLoop env args.max (args.max * 3) initState).downloaded
        omega

/-- Witness for C1 on the failing-search run. -/
theorem scheduler_overshoot_bound_witness :
    ({ initState with searches := [((0 : Int), (0 : Int))] } : SchedState).downloaded ≤
      argsOne.max ∧
    (0 : Int) ≤ argsOne.max +
      ({ initState with searches := [((0 : Int), (0 : Int))] } : SchedState).futures.length :=
  scheduler_overshoot_bound envEmpty argsOne _ 0 main_run_envEmpty_eval

/-- C2: every Crossref search is issued with `attempts < target × 3` and
with the offset within the claimed `target × 3 × page_size` bound (the
code's own guard, `offset < target × 3 × 5`, is stricter than the claimed
`target × 3 × 20`, so no search is ever issued beyond either), and the
number of searches in a run is bounded — the loop terminates.  (The model
`schedLoop` is itself a total function, by the decreasing measure
`target × 15 − offset`.) -/
theorem search_bound_and_termination (env : SchedEnv) (args : ScrapeArgs)
    (fin : SchedState) (reported : Int)
    (h : main_run env args = MainOutcome.finished fin reported) :
    (∀ p ∈ fin.searches, p.1 < args.max * 3 ∧ p.2 ≤ args.max * 3 * 20) ∧
    fin.searches.length ≤ ((args.max * 3 * 5).toNat + 19) / 20 := by
  unfold main_run at h
  split at h
  · simp at h
  · split at h
    · simp at h
    · injection h with h1 h2
      subst h1
      have hmax : 0 < args.max := by rename_i hpool; omega
      have hrun := schedLoop_searches env args.max (args.max * 3) initState
        (by intro p hp; simp [initState] at hp)
      constructor
      · intro p hp
        have hb := hrun.1 p hp
        exact ⟨hb.1, by omega⟩
      · have hlen : (schedLoop env args.max (args.max * 3) initState).searches.length ≤
            0 + ((args.max * 3 * 5 - 0).toNat + 19) / 20 := hrun.2
        omega

/-- Witness for C2 on the failing-search run: its single search was
issued at attempts 0, offset 0. -/
theorem search_bound_and_termination_witness :
    ((0 : Int) < argsOne.max * 3 ∧ (0 : Int) ≤ argsOne.max * 3 * 20) :=
  (search_bound_and_termination envEmpty argsOne _ 0 main_run_envEmpty_eval).1
    (0, 0) (by simp)

/-- C3: within one scheduler run no DOI is submitted to the item pipeline
twice (the submission trace is duplicate-free), and no submitted DOI is
missing or empty. -/
theorem submission_dedup (env : SchedEnv) (args : ScrapeArgs)
    (fin : SchedState) (reported : Int)
    (h : main_run env args = MainOutcome.finished fin reported) :
    fin.submitted.Nodup ∧ ∀ d ∈ fin.submitted, d ≠ "" := by
  unfold main_run at h
  split at h
  · simp at h
  · split at h
    · simp at h
    · injection h with h1 h2
      subst h1
      have hinv := schedLoop_inv env args.max (args.max * 3) initState
        ⟨List.nodup_nil, by intro d hd; simp [initState] at hd,
          by intro d hd; simp [initState] at hd⟩
      exact ⟨hinv.1, hinv.2.2⟩

/-- Witness for C3 on the overshoot run, whose two submissions are the
distinct non-empty DOIs "a" and "b". -/
theorem submission_dedup_witness : (["a", "b"] : List String).Nodup :=
  (submission_dedup envOvershoot argsOne _ 2 main_run_envOvershoot_eval).1

end PdfScraper
